import Mathlib

/-!
# The configuration of the `st` terminal (`config.h`)

A shallow embedding of the data that `config.h` supplies to the terminal: the
colour table and the default colour slots, the timing constants, the
`mappedkeys` array and the `key` table of special keys, together with the two
pieces of the engine that the configuration documents but does not contain
(the sequential key lookup and the Synchronized-Update state machine).

C strings are byte strings; every byte used by the tables is below `0x80`, so a
string is embedded as the Lean string with the same bytes (`\033` is `\x1b`,
`\177` is `\x7f`, and so on).  `unsigned int` values are natural numbers below
`2 ^ 32`.
-/

namespace St

set_option maxRecDepth 100000

/-! ## Constants of the X11 headers (`X.h`, `keysymdef.h`) -/

def ShiftMask : Nat := 1 <<< 0
def LockMask : Nat := 1 <<< 1
def ControlMask : Nat := 1 <<< 2
def Mod1Mask : Nat := 1 <<< 3
def Mod2Mask : Nat := 1 <<< 4
def Mod3Mask : Nat := 1 <<< 5
def Mod4Mask : Nat := 1 <<< 6
def Mod5Mask : Nat := 1 <<< 7

def XK_KP_Home : Nat := 0xFF95
def XK_KP_Up : Nat := 0xFF97
def XK_KP_Down : Nat := 0xFF99
def XK_KP_Left : Nat := 0xFF96
def XK_KP_Right : Nat := 0xFF98
def XK_KP_Prior : Nat := 0xFF9A
def XK_KP_Begin : Nat := 0xFF9D
def XK_KP_End : Nat := 0xFF9C
def XK_KP_Next : Nat := 0xFF9B
def XK_KP_Insert : Nat := 0xFF9E
def XK_KP_Delete : Nat := 0xFF9F
def XK_KP_Multiply : Nat := 0xFFAA
def XK_KP_Add : Nat := 0xFFAB
def XK_KP_Enter : Nat := 0xFF8D
def XK_KP_Subtract : Nat := 0xFFAD
def XK_KP_Decimal : Nat := 0xFFAE
def XK_KP_Divide : Nat := 0xFFAF
def XK_KP_0 : Nat := 0xFFB0
def XK_KP_1 : Nat := 0xFFB1
def XK_KP_2 : Nat := 0xFFB2
def XK_KP_3 : Nat := 0xFFB3
def XK_KP_4 : Nat := 0xFFB4
def XK_KP_5 : Nat := 0xFFB5
def XK_KP_6 : Nat := 0xFFB6
def XK_KP_7 : Nat := 0xFFB7
def XK_KP_8 : Nat := 0xFFB8
def XK_KP_9 : Nat := 0xFFB9
def XK_Up : Nat := 0xFF52
def XK_Down : Nat := 0xFF54
def XK_Left : Nat := 0xFF51
def XK_Right : Nat := 0xFF53
def XK_ISO_Left_Tab : Nat := 0xFE20
def XK_Tab : Nat := 0xFF09
def XK_Return : Nat := 0xFF0D
def XK_Insert : Nat := 0xFF63
def XK_Delete : Nat := 0xFFFF
def XK_BackSpace : Nat := 0xFF08
def XK_bar : Nat := 0x7C
def XK_i : Nat := 0x69
def XK_I : Nat := 0x49
def XK_C : Nat := 0x43
def XK_V : Nat := 0x56
def XK_braceleft : Nat := 0x7B
def XK_braceright : Nat := 0x7D
def XK_question : Nat := 0x3F
def XK_space : Nat := 0x20
def XK_X : Nat := 0x58
def XK_J : Nat := 0x4A
def XK_K : Nat := 0x4B
def XK_H : Nat := 0x48
def XK_L : Nat := 0x4C
def XK_G : Nat := 0x47
def XK_N : Nat := 0x4E
def XK_P : Nat := 0x50
def XK_equal : Nat := 0x3D
def XK_minus : Nat := 0x2D
def XK_Home : Nat := 0xFF50
def XK_End : Nat := 0xFF57
def XK_Prior : Nat := 0xFF55
def XK_Next : Nat := 0xFF56
def XK_F1 : Nat := 0xFFBE
def XK_F2 : Nat := 0xFFBF
def XK_F3 : Nat := 0xFFC0
def XK_F4 : Nat := 0xFFC1
def XK_F5 : Nat := 0xFFC2
def XK_F6 : Nat := 0xFFC3
def XK_F7 : Nat := 0xFFC4
def XK_F8 : Nat := 0xFFC5
def XK_F9 : Nat := 0xFFC6
def XK_F10 : Nat := 0xFFC7
def XK_F11 : Nat := 0xFFC8
def XK_F12 : Nat := 0xFFC9
def XK_F13 : Nat := 0xFFCA
def XK_F14 : Nat := 0xFFCB
def XK_F15 : Nat := 0xFFCC
def XK_F16 : Nat := 0xFFCD
def XK_F17 : Nat := 0xFFCE
def XK_F18 : Nat := 0xFFCF
def XK_F19 : Nat := 0xFFD0
def XK_F20 : Nat := 0xFFD1
def XK_F21 : Nat := 0xFFD2
def XK_F22 : Nat := 0xFFD3
def XK_F23 : Nat := 0xFFD4
def XK_F24 : Nat := 0xFFD5
def XK_F25 : Nat := 0xFFD6
def XK_F26 : Nat := 0xFFD7
def XK_F27 : Nat := 0xFFD8
def XK_F28 : Nat := 0xFFD9
def XK_F29 : Nat := 0xFFDA
def XK_F30 : Nat := 0xFFDB
def XK_F31 : Nat := 0xFFDC
def XK_F32 : Nat := 0xFFDD
def XK_F33 : Nat := 0xFFDE
def XK_F34 : Nat := 0xFFDF
def XK_F35 : Nat := 0xFFE0

/-! ## Masks declared by the terminal front end -/

/-- Modelled from the spec: the macro `XK_ANY_MOD` is declared by the X11 front
end, outside `config.h`, as `UINT_MAX`; `config.h` documents it as the mask
that matches the key no matter the modifiers state. -/
def XK_ANY_MOD : Nat := 4294967295

/-- Modelled from the spec: the macro `XK_NO_MOD` is declared by the X11 front
end, outside `config.h`, as `0`; `config.h` documents it as the mask that
matches the key alone (no modifiers). -/
def XK_NO_MOD : Nat := 0

/-- Modelled from the spec: the macro `XK_SWITCH_MOD` is declared by the X11
front end, outside `config.h`, as `(1<<13 | 1<<14)`, the keyboard-layout
bits. -/
def XK_SWITCH_MOD : Nat := (1 <<< 13) ||| (1 <<< 14)

/-! ## Scalars of `config.h` -/

/-- Synchronized-Update timeout in ms. -/
def su_timeout : Nat := 200

/-- Selection timeouts (in milliseconds). -/
def doubleclicktimeout : Nat := 300
def tripleclicktimeout : Nat := 600

/-- Draw latency range in ms.  The C variables are `double`s initialised from
the integer literals `8` and `33`, both exactly representable. -/
def minlatency : ℚ := 8
def maxlatency : ℚ := 33

/-! ## The colour table -/

/-- Terminal colours.  A `NULL` pointer is `none`.  The first sixteen slots are
named, the designator `[255] = 0` leaves the slots 16..255 null, and four more
names follow it in the slots 256..259. -/
def colorname : List (Option String) :=
  [ some "#282828",
    some "#cc241d",
    some "#98971a",
    some "#d79921",
    some "#458588",
    some "#b16286",
    some "#689d6a",
    some "#a89984",
    some "#928374",
    some "#fb4934",
    some "#b8bb26",
    some "#fabd2f",
    some "#83a598",
    some "#d3869b",
    some "#8ec07c",
    some "#ebdbb2" ]
  ++ List.replicate (255 - 16) none   -- slots 16..254, zero-initialised
  ++ [ none,                           -- [255] = 0
       some "#add8e6",  -- 256 -> cursor
       some "#555555",  -- 257 -> rev cursor
       some "#282828",  -- 258 -> bg
       some "#ebdbb2" ] -- 259 -> fg

/-- Number of slots: `sizeof(colorname)/sizeof(*colorname)`. -/
def ncolors : Nat := colorname.length

/-- Default colors (colorname index): foreground, background, cursor, reverse
cursor. -/
def defaultfg : Nat := 259
def defaultbg : Nat := 258
def defaultcs : Nat := 256
def defaultrcs : Nat := 257

/-! ## Keys -/

/-- Keysyms other than the X11 function keys (0xFD00 - 0xFFFF) that are looked
up in `key`. -/
def mappedkeys : List Nat :=
  [ XK_i, XK_I, XK_C, XK_V, XK_X, XK_J, XK_K, XK_H, XK_L, XK_G, XK_N, XK_P,
    XK_space, XK_equal, XK_minus, XK_bar, XK_question, XK_braceleft,
    XK_braceright ]

/-- State bits to ignore when matching key or button events. -/
def ignoremod : Nat := Mod2Mask ||| XK_SWITCH_MOD

/-- One row of the key table: keysym, mask, string, appkey, appcursor. -/
structure Key where
  k : Nat
  mask : Nat
  s : String
  appkey : Int
  appcursor : Int
deriving DecidableEq, Repr

/-- The key array of `config.h`, in source order. -/
def key : List Key := [
  Key.mk XK_KP_Home ShiftMask "\x1b[2J" 0 (-1),
  Key.mk XK_KP_Home ShiftMask "\x1b[1;2H" 0 1,
  Key.mk XK_KP_Home XK_ANY_MOD "\x1b[H" 0 (-1),
  Key.mk XK_KP_Home XK_ANY_MOD "\x1b[1~" 0 1,
  Key.mk XK_KP_Up XK_ANY_MOD "\x1bOx" 1 0,
  Key.mk XK_KP_Up XK_ANY_MOD "\x1b[A" 0 (-1),
  Key.mk XK_KP_Up XK_ANY_MOD "\x1bOA" 0 1,
  Key.mk XK_KP_Down XK_ANY_MOD "\x1bOr" 1 0,
  Key.mk XK_KP_Down XK_ANY_MOD "\x1b[B" 0 (-1),
  Key.mk XK_KP_Down XK_ANY_MOD "\x1bOB" 0 1,
  Key.mk XK_KP_Left XK_ANY_MOD "\x1bOt" 1 0,
  Key.mk XK_KP_Left XK_ANY_MOD "\x1b[D" 0 (-1),
  Key.mk XK_KP_Left XK_ANY_MOD "\x1bOD" 0 1,
  Key.mk XK_KP_Right XK_ANY_MOD "\x1bOv" 1 0,
  Key.mk XK_KP_Right XK_ANY_MOD "\x1b[C" 0 (-1),
  Key.mk XK_KP_Right XK_ANY_MOD "\x1bOC" 0 1,
  Key.mk XK_KP_Prior ShiftMask "\x1b[5;2~" 0 0,
  Key.mk XK_KP_Prior XK_ANY_MOD "\x1b[5~" 0 0,
  Key.mk XK_KP_Begin XK_ANY_MOD "\x1b[E" 0 0,
  Key.mk XK_KP_End ControlMask "\x1b[J" (-1) 0,
  Key.mk XK_KP_End ControlMask "\x1b[1;5F" 1 0,
  Key.mk XK_KP_End ShiftMask "\x1b[K" (-1) 0,
  Key.mk XK_KP_End ShiftMask "\x1b[1;2F" 1 0,
  Key.mk XK_KP_End XK_ANY_MOD "\x1b[4~" 0 0,
  Key.mk XK_KP_Next ShiftMask "\x1b[6;2~" 0 0,
  Key.mk XK_KP_Next XK_ANY_MOD "\x1b[6~" 0 0,
  Key.mk XK_KP_Insert ShiftMask "\x1b[2;2~" 1 0,
  Key.mk XK_KP_Insert ShiftMask "\x1b[4l" (-1) 0,
  Key.mk XK_KP_Insert ControlMask "\x1b[L" (-1) 0,
  Key.mk XK_KP_Insert ControlMask "\x1b[2;5~" 1 0,
  Key.mk XK_KP_Insert XK_ANY_MOD "\x1b[4h" (-1) 0,
  Key.mk XK_KP_Insert XK_ANY_MOD "\x1b[2~" 1 0,
  Key.mk XK_KP_Delete ControlMask "\x1b[M" (-1) 0,
  Key.mk XK_KP_Delete ControlMask "\x1b[3;5~" 1 0,
  Key.mk XK_KP_Delete ShiftMask "\x1b[2K" (-1) 0,
  Key.mk XK_KP_Delete ShiftMask "\x1b[3;2~" 1 0,
  Key.mk XK_KP_Delete XK_ANY_MOD "\x1b[P" (-1) 0,
  Key.mk XK_KP_Delete XK_ANY_MOD "\x1b[3~" 1 0,
  Key.mk XK_KP_Multiply XK_ANY_MOD "\x1bOj" 2 0,
  Key.mk XK_KP_Add XK_ANY_MOD "\x1bOk" 2 0,
  Key.mk XK_KP_Enter XK_ANY_MOD "\x1bOM" 2 0,
  Key.mk XK_KP_Enter XK_ANY_MOD "\r" (-1) 0,
  Key.mk XK_KP_Subtract XK_ANY_MOD "\x1bOm" 2 0,
  Key.mk XK_KP_Decimal XK_ANY_MOD "\x1bOn" 2 0,
  Key.mk XK_KP_Divide XK_ANY_MOD "\x1bOo" 2 0,
  Key.mk XK_KP_0 XK_ANY_MOD "\x1bOp" 2 0,
  Key.mk XK_KP_1 XK_ANY_MOD "\x1bOq" 2 0,
  Key.mk XK_KP_2 XK_ANY_MOD "\x1bOr" 2 0,
  Key.mk XK_KP_3 XK_ANY_MOD "\x1bOs" 2 0,
  Key.mk XK_KP_4 XK_ANY_MOD "\x1bOt" 2 0,
  Key.mk XK_KP_5 XK_ANY_MOD "\x1bOu" 2 0,
  Key.mk XK_KP_6 XK_ANY_MOD "\x1bOv" 2 0,
  Key.mk XK_KP_7 XK_ANY_MOD "\x1bOw" 2 0,
  Key.mk XK_KP_8 XK_ANY_MOD "\x1bOx" 2 0,
  Key.mk XK_KP_9 XK_ANY_MOD "\x1bOy" 2 0,
  Key.mk XK_Up ShiftMask "\x1b[1;2A" 0 0,
  Key.mk XK_Up Mod1Mask "\x1b[1;3A" 0 0,
  Key.mk XK_Up (ShiftMask ||| Mod1Mask) "\x1b[1;4A" 0 0,
  Key.mk XK_Up ControlMask "\x1b[1;5A" 0 0,
  Key.mk XK_Up (ShiftMask ||| ControlMask) "\x1b[1;6A" 0 0,
  Key.mk XK_Up (ControlMask ||| Mod1Mask) "\x1b[1;7A" 0 0,
  Key.mk XK_Up (ShiftMask ||| ControlMask ||| Mod1Mask) "\x1b[1;8A" 0 0,
  Key.mk XK_Up XK_ANY_MOD "\x1b[A" 0 (-1),
  Key.mk XK_Up XK_ANY_MOD "\x1bOA" 0 1,
  Key.mk XK_Down ShiftMask "\x1b[1;2B" 0 0,
  Key.mk XK_Down Mod1Mask "\x1b[1;3B" 0 0,
  Key.mk XK_Down (ShiftMask ||| Mod1Mask) "\x1b[1;4B" 0 0,
  Key.mk XK_Down ControlMask "\x1b[1;5B" 0 0,
  Key.mk XK_Down (ShiftMask ||| ControlMask) "\x1b[1;6B" 0 0,
  Key.mk XK_Down (ControlMask ||| Mod1Mask) "\x1b[1;7B" 0 0,
  Key.mk XK_Down (ShiftMask ||| ControlMask ||| Mod1Mask) "\x1b[1;8B" 0 0,
  Key.mk XK_Down XK_ANY_MOD "\x1b[B" 0 (-1),
  Key.mk XK_Down XK_ANY_MOD "\x1bOB" 0 1,
  Key.mk XK_Left ShiftMask "\x1b[1;2D" 0 0,
  Key.mk XK_Left Mod1Mask "\x1b[1;3D" 0 0,
  Key.mk XK_Left (ShiftMask ||| Mod1Mask) "\x1b[1;4D" 0 0,
  Key.mk XK_Left ControlMask "\x1b[1;5D" 0 0,
  Key.mk XK_Left (ShiftMask ||| ControlMask) "\x1b[1;6D" 0 0,
  Key.mk XK_Left (ControlMask ||| Mod1Mask) "\x1b[1;7D" 0 0,
  Key.mk XK_Left (ShiftMask ||| ControlMask ||| Mod1Mask) "\x1b[1;8D" 0 0,
  Key.mk XK_Left XK_ANY_MOD "\x1b[D" 0 (-1),
  Key.mk XK_Left XK_ANY_MOD "\x1bOD" 0 1,
  Key.mk XK_Right ShiftMask "\x1b[1;2C" 0 0,
  Key.mk XK_Right Mod1Mask "\x1b[1;3C" 0 0,
  Key.mk XK_Right (ShiftMask ||| Mod1Mask) "\x1b[1;4C" 0 0,
  Key.mk XK_Right ControlMask "\x1b[1;5C" 0 0,
  Key.mk XK_Right (ShiftMask ||| ControlMask) "\x1b[1;6C" 0 0,
  Key.mk XK_Right (ControlMask ||| Mod1Mask) "\x1b[1;7C" 0 0,
  Key.mk XK_Right (ShiftMask ||| ControlMask ||| Mod1Mask) "\x1b[1;8C" 0 0,
  Key.mk XK_Right XK_ANY_MOD "\x1b[C" 0 (-1),
  Key.mk XK_Right XK_ANY_MOD "\x1bOC" 0 1,
  Key.mk XK_ISO_Left_Tab ShiftMask "\x1b[Z" 0 0,
  Key.mk XK_Tab ShiftMask "\x1b[Z" 0 0,
  Key.mk XK_Tab ControlMask "\x1b[27;5;9~" 0 0,
  Key.mk XK_Return Mod1Mask "\x1b\r" 0 0,
  Key.mk XK_Return (ControlMask ||| Mod1Mask) "\x1e\r" 0 0,
  Key.mk XK_Return XK_ANY_MOD "\r" 0 0,
  Key.mk XK_Insert ShiftMask "\x1b[2;2~" 0 0,
  Key.mk XK_Insert Mod1Mask "\x1b[2;3~" 0 0,
  Key.mk XK_Insert (ShiftMask ||| Mod1Mask) "\x1b[2;4~" 0 0,
  Key.mk XK_Insert ControlMask "\x1b[2;5~" 0 0,
  Key.mk XK_Insert (ShiftMask ||| ControlMask) "\x1b[2;6~" 0 0,
  Key.mk XK_Insert (ControlMask ||| Mod1Mask) "\x1b[2;7~" 0 0,
  Key.mk XK_Insert (ShiftMask ||| ControlMask ||| Mod1Mask) "\x1b[2;8~" 0 0,
  Key.mk XK_Insert ShiftMask "\x1b[4l" (-1) 0,
  Key.mk XK_Insert ShiftMask "\x1b[2;2~" 1 0,
  Key.mk XK_Insert ControlMask "\x1b[L" (-1) 0,
  Key.mk XK_Insert ControlMask "\x1b[2;5~" 1 0,
  Key.mk XK_Insert XK_ANY_MOD "\x1b[4h" (-1) 0,
  Key.mk XK_Insert XK_ANY_MOD "\x1b[2~" 1 0,
  Key.mk XK_Delete ShiftMask "\x1b[3;2~" 0 0,
  Key.mk XK_Delete Mod1Mask "\x1b[3;3~" 0 0,
  Key.mk XK_Delete (ShiftMask ||| Mod1Mask) "\x1b[3;4~" 0 0,
  Key.mk XK_Delete ControlMask "\x1b[3;5~" 0 0,
  Key.mk XK_Delete (ShiftMask ||| ControlMask) "\x1b[3;6~" 0 0,
  Key.mk XK_Delete (ControlMask ||| Mod1Mask) "\x1b[3;7~" 0 0,
  Key.mk XK_Delete (ShiftMask ||| ControlMask ||| Mod1Mask) "\x1b[3;8~" 0 0,
  Key.mk XK_Delete ControlMask "\x1b[M" (-1) 0,
  Key.mk XK_Delete ControlMask "\x1b[3;5~" 1 0,
  Key.mk XK_Delete ShiftMask "\x1b[2K" (-1) 0,
  Key.mk XK_Delete ShiftMask "\x1b[3;2~" 1 0,
  Key.mk XK_Delete XK_ANY_MOD "\x1b[P" (-1) 0,
  Key.mk XK_Delete XK_ANY_MOD "\x1b[3~" 1 0,
  Key.mk XK_BackSpace XK_NO_MOD "\x7f" 0 0,
  Key.mk XK_BackSpace Mod1Mask "\x1b\x7f" 0 0,
  Key.mk XK_BackSpace ShiftMask "\x1e\x08" 0 0,
  Key.mk XK_BackSpace ControlMask "\x1e\x7f" 0 0,
  Key.mk XK_BackSpace (ControlMask ||| ShiftMask) "\x1f\x7f" 0 0,
  Key.mk XK_BackSpace (ShiftMask ||| Mod1Mask) "\x1b@" 0 0,
  Key.mk XK_BackSpace (ControlMask ||| Mod1Mask) "\x1b@" 0 0,
  Key.mk XK_bar (ControlMask ||| ShiftMask) "\x1f\\" 0 0,
  Key.mk XK_i ControlMask "\x1e\t" 0 0,
  Key.mk XK_I (ShiftMask ||| ControlMask) "\x1b[Z" 0 0,
  Key.mk XK_C (ControlMask ||| ShiftMask) "\x1b[2;5~" 0 0,
  Key.mk XK_V (ControlMask ||| ShiftMask) "\x1b[2;2~" 0 0,
  Key.mk XK_braceleft (ControlMask ||| ShiftMask) "\x1f[" 0 0,
  Key.mk XK_braceright (ControlMask ||| ShiftMask) "\x1f]" 0 0,
  Key.mk XK_question (ControlMask ||| ShiftMask) "\x1f/" 0 0,
  Key.mk XK_space ShiftMask "\x1e " 0 0,
  Key.mk XK_space (ControlMask ||| ShiftMask) "\x1f " 0 0,
  Key.mk XK_space (ShiftMask ||| Mod1Mask) "\x1b#" 0 0,
  Key.mk XK_space (ControlMask ||| Mod1Mask) "\x1b#" 0 0,
  Key.mk XK_X (ControlMask ||| ShiftMask) "\x1bx" 0 0,
  Key.mk XK_J (ControlMask ||| ShiftMask) "\x1fJ" 0 0,
  Key.mk XK_K (ControlMask ||| ShiftMask) "\x1fK" 0 0,
  Key.mk XK_H (ControlMask ||| ShiftMask) "\x1fH" 0 0,
  Key.mk XK_L (ControlMask ||| ShiftMask) "\x1fL" 0 0,
  Key.mk XK_G (ControlMask ||| ShiftMask) "\x1fG" 0 0,
  Key.mk XK_N (ControlMask ||| ShiftMask) "\x1fN" 0 0,
  Key.mk XK_P (ControlMask ||| ShiftMask) "\x1fP" 0 0,
  Key.mk XK_equal ControlMask "\x1e=" 0 0,
  Key.mk XK_equal (ControlMask ||| Mod1Mask) "\x1b#" 0 0,
  Key.mk XK_minus ControlMask "\x1e-" 0 0,
  Key.mk XK_minus (ControlMask ||| Mod1Mask) "" 0 0,
  Key.mk XK_Home ShiftMask "\x1b[1;2H" 0 0,
  Key.mk XK_Home Mod1Mask "\x1b[1;3H" 0 0,
  Key.mk XK_Home (ShiftMask ||| Mod1Mask) "\x1b[1;4H" 0 0,
  Key.mk XK_Home ControlMask "\x1b[1;5H" 0 0,
  Key.mk XK_Home (ShiftMask ||| ControlMask) "\x1b[1;6H" 0 0,
  Key.mk XK_Home (ControlMask ||| Mod1Mask) "\x1b[1;7H" 0 0,
  Key.mk XK_Home (ShiftMask ||| ControlMask ||| Mod1Mask) "\x1b[1;8H" 0 0,
  Key.mk XK_Home ShiftMask "\x1b[2J" 0 (-1),
  Key.mk XK_Home XK_ANY_MOD "\x1b[H" 0 (-1),
  Key.mk XK_Home XK_ANY_MOD "\x1b[1~" 0 1,
  Key.mk XK_End ShiftMask "\x1b[1;2F" 0 0,
  Key.mk XK_End Mod1Mask "\x1b[1;3F" 0 0,
  Key.mk XK_End (ShiftMask ||| Mod1Mask) "\x1b[1;4F" 0 0,
  Key.mk XK_End ControlMask "\x1b[1;5F" 0 0,
  Key.mk XK_End (ShiftMask ||| ControlMask) "\x1b[1;6F" 0 0,
  Key.mk XK_End (ControlMask ||| Mod1Mask) "\x1b[1;7F" 0 0,
  Key.mk XK_End (ShiftMask ||| ControlMask ||| Mod1Mask) "\x1b[1;8F" 0 0,
  Key.mk XK_End ShiftMask "\x1b[K" (-1) 0,
  Key.mk XK_End ControlMask "\x1b[J" (-1) 0,
  Key.mk XK_End XK_ANY_MOD "\x1b[4~" 0 0,
  Key.mk XK_Prior ShiftMask "\x1b[5;2~" 0 0,
  Key.mk XK_Prior Mod1Mask "\x1b[5;3~" 0 0,
  Key.mk XK_Prior (ShiftMask ||| Mod1Mask) "\x1b[5;4~" 0 0,
  Key.mk XK_Prior ControlMask "\x1b[5;5~" 0 0,
  Key.mk XK_Prior (ShiftMask ||| ControlMask) "\x1b[5;6~" 0 0,
  Key.mk XK_Prior (ControlMask ||| Mod1Mask) "\x1b[5;7~" 0 0,
  Key.mk XK_Prior (ShiftMask ||| ControlMask ||| Mod1Mask) "\x1b[5;8~" 0 0,
  Key.mk XK_Prior XK_ANY_MOD "\x1b[5~" 0 0,
  Key.mk XK_Next ShiftMask "\x1b[6;2~" 0 0,
  Key.mk XK_Next Mod1Mask "\x1b[6;3~" 0 0,
  Key.mk XK_Next (ShiftMask ||| Mod1Mask) "\x1b[6;4~" 0 0,
  Key.mk XK_Next ControlMask "\x1b[6;5~" 0 0,
  Key.mk XK_Next (ShiftMask ||| ControlMask) "\x1b[6;6~" 0 0,
  Key.mk XK_Next (ControlMask ||| Mod1Mask) "\x1b[6;7~" 0 0,
  Key.mk XK_Next (ShiftMask ||| ControlMask ||| Mod1Mask) "\x1b[6;8~" 0 0,
  Key.mk XK_Next XK_ANY_MOD "\x1b[6~" 0 0,
  Key.mk XK_F1 XK_NO_MOD "\x1bOP" 0 0,
  Key.mk XK_F1 ShiftMask "\x1b[1;2P" 0 0,
  Key.mk XK_F1 ControlMask "\x1b[1;5P" 0 0,
  Key.mk XK_F1 Mod4Mask "\x1b[1;6P" 0 0,
  Key.mk XK_F1 Mod1Mask "\x1b[1;3P" 0 0,
  Key.mk XK_F1 Mod3Mask "\x1b[1;4P" 0 0,
  Key.mk XK_F2 XK_NO_MOD "\x1bOQ" 0 0,
  Key.mk XK_F2 ShiftMask "\x1b[1;2Q" 0 0,
  Key.mk XK_F2 ControlMask "\x1b[1;5Q" 0 0,
  Key.mk XK_F2 Mod4Mask "\x1b[1;6Q" 0 0,
  Key.mk XK_F2 Mod1Mask "\x1b[1;3Q" 0 0,
  Key.mk XK_F2 Mod3Mask "\x1b[1;4Q" 0 0,
  Key.mk XK_F3 XK_NO_MOD "\x1bOR" 0 0,
  Key.mk XK_F3 ShiftMask "\x1b[1;2R" 0 0,
  Key.mk XK_F3 ControlMask "\x1b[1;5R" 0 0,
  Key.mk XK_F3 Mod4Mask "\x1b[1;6R" 0 0,
  Key.mk XK_F3 Mod1Mask "\x1b[1;3R" 0 0,
  Key.mk XK_F3 Mod3Mask "\x1b[1;4R" 0 0,
  Key.mk XK_F4 XK_NO_MOD "\x1bOS" 0 0,
  Key.mk XK_F4 ShiftMask "\x1b[1;2S" 0 0,
  Key.mk XK_F4 ControlMask "\x1b[1;5S" 0 0,
  Key.mk XK_F4 Mod4Mask "\x1b[1;6S" 0 0,
  Key.mk XK_F4 Mod1Mask "\x1b[1;3S" 0 0,
  Key.mk XK_F5 XK_NO_MOD "\x1b[15~" 0 0,
  Key.mk XK_F5 ShiftMask "\x1b[15;2~" 0 0,
  Key.mk XK_F5 ControlMask "\x1b[15;5~" 0 0,
  Key.mk XK_F5 Mod4Mask "\x1b[15;6~" 0 0,
  Key.mk XK_F5 Mod1Mask "\x1b[15;3~" 0 0,
  Key.mk XK_F6 XK_NO_MOD "\x1b[17~" 0 0,
  Key.mk XK_F6 ShiftMask "\x1b[17;2~" 0 0,
  Key.mk XK_F6 ControlMask "\x1b[17;5~" 0 0,
  Key.mk XK_F6 Mod4Mask "\x1b[17;6~" 0 0,
  Key.mk XK_F6 Mod1Mask "\x1b[17;3~" 0 0,
  Key.mk XK_F7 XK_NO_MOD "\x1b[18~" 0 0,
  Key.mk XK_F7 ShiftMask "\x1b[18;2~" 0 0,
  Key.mk XK_F7 ControlMask "\x1b[18;5~" 0 0,
  Key.mk XK_F7 Mod4Mask "\x1b[18;6~" 0 0,
  Key.mk XK_F7 Mod1Mask "\x1b[18;3~" 0 0,
  Key.mk XK_F8 XK_NO_MOD "\x1b[19~" 0 0,
  Key.mk XK_F8 ShiftMask "\x1b[19;2~" 0 0,
  Key.mk XK_F8 ControlMask "\x1b[19;5~" 0 0,
  Key.mk XK_F8 Mod4Mask "\x1b[19;6~" 0 0,
  Key.mk XK_F8 Mod1Mask "\x1b[19;3~" 0 0,
  Key.mk XK_F9 XK_NO_MOD "\x1b[20~" 0 0,
  Key.mk XK_F9 ShiftMask "\x1b[20;2~" 0 0,
  Key.mk XK_F9 ControlMask "\x1b[20;5~" 0 0,
  Key.mk XK_F9 Mod4Mask "\x1b[20;6~" 0 0,
  Key.mk XK_F9 Mod1Mask "\x1b[20;3~" 0 0,
  Key.mk XK_F10 XK_NO_MOD "\x1b[21~" 0 0,
  Key.mk XK_F10 ShiftMask "\x1b[21;2~" 0 0,
  Key.mk XK_F10 ControlMask "\x1b[21;5~" 0 0,
  Key.mk XK_F10 Mod4Mask "\x1b[21;6~" 0 0,
  Key.mk XK_F10 Mod1Mask "\x1b[21;3~" 0 0,
  Key.mk XK_F11 XK_NO_MOD "\x1b[23~" 0 0,
  Key.mk XK_F11 ShiftMask "\x1b[23;2~" 0 0,
  Key.mk XK_F11 ControlMask "\x1b[23;5~" 0 0,
  Key.mk XK_F11 Mod4Mask "\x1b[23;6~" 0 0,
  Key.mk XK_F11 Mod1Mask "\x1b[23;3~" 0 0,
  Key.mk XK_F12 XK_NO_MOD "\x1b[24~" 0 0,
  Key.mk XK_F12 ShiftMask "\x1b[24;2~" 0 0,
  Key.mk XK_F12 ControlMask "\x1b[24;5~" 0 0,
  Key.mk XK_F12 Mod4Mask "\x1b[24;6~" 0 0,
  Key.mk XK_F12 Mod1Mask "\x1b[24;3~" 0 0,
  Key.mk XK_F13 XK_NO_MOD "\x1b[1;2P" 0 0,
  Key.mk XK_F14 XK_NO_MOD "\x1b[1;2Q" 0 0,
  Key.mk XK_F15 XK_NO_MOD "\x1b[1;2R" 0 0,
  Key.mk XK_F16 XK_NO_MOD "\x1b[1;2S" 0 0,
  Key.mk XK_F17 XK_NO_MOD "\x1b[15;2~" 0 0,
  Key.mk XK_F18 XK_NO_MOD "\x1b[17;2~" 0 0,
  Key.mk XK_F19 XK_NO_MOD "\x1b[18;2~" 0 0,
  Key.mk XK_F20 XK_NO_MOD "\x1b[19;2~" 0 0,
  Key.mk XK_F21 XK_NO_MOD "\x1b[20;2~" 0 0,
  Key.mk XK_F22 XK_NO_MOD "\x1b[21;2~" 0 0,
  Key.mk XK_F23 XK_NO_MOD "\x1b[23;2~" 0 0,
  Key.mk XK_F24 XK_NO_MOD "\x1b[24;2~" 0 0,
  Key.mk XK_F25 XK_NO_MOD "\x1b[1;5P" 0 0,
  Key.mk XK_F26 XK_NO_MOD "\x1b[1;5Q" 0 0,
  Key.mk XK_F27 XK_NO_MOD "\x1b[1;5R" 0 0,
  Key.mk XK_F28 XK_NO_MOD "\x1b[1;5S" 0 0,
  Key.mk XK_F29 XK_NO_MOD "\x1b[15;5~" 0 0,
  Key.mk XK_F30 XK_NO_MOD "\x1b[17;5~" 0 0,
  Key.mk XK_F31 XK_NO_MOD "\x1b[18;5~" 0 0,
  Key.mk XK_F32 XK_NO_MOD "\x1b[19;5~" 0 0,
  Key.mk XK_F33 XK_NO_MOD "\x1b[20;5~" 0 0,
  Key.mk XK_F34 XK_NO_MOD "\x1b[21;5~" 0 0,
  Key.mk XK_F35 XK_NO_MOD "\x1b[23;5~" 0 0
]

/-- The keysym `XK_Fn` of the function key number `n`, for `n` in 1..35. -/
def XK_F : Nat → Nat
  | 0 => 0
  | n + 1 =>
    [ XK_F1, XK_F2, XK_F3, XK_F4, XK_F5, XK_F6, XK_F7, XK_F8, XK_F9, XK_F10,
      XK_F11, XK_F12, XK_F13, XK_F14, XK_F15, XK_F16, XK_F17, XK_F18, XK_F19,
      XK_F20, XK_F21, XK_F22, XK_F23, XK_F24, XK_F25, XK_F26, XK_F27, XK_F28,
      XK_F29, XK_F30, XK_F31, XK_F32, XK_F33, XK_F34, XK_F35 ].getD n 0

/-- The rows of `key` written for the keysym `k` with the mask `mask`, in
table order. -/
def entries (k mask : Nat) : List Key :=
  key.filter (fun e => e.k == k && e.mask == mask)

/-! ## The sequential lookup in `key` -/

/-- The terminal modes the lookup reads: keypad application mode, numlock,
cursor application mode. -/
structure Modes where
  appkeypad : Bool
  numlock : Bool
  appcursor : Bool
deriving DecidableEq, Repr

/-- Modelled from the spec: the modifier state that the X11 front end (not in
`config.h`) compares with a mask: the event state without the bits of
`ignoremod`, that is `state & ~ignoremod` on 32 bits. -/
def effective (state : Nat) : Nat :=
  state &&& (4294967295 ^^^ ignoremod)

/-- Modelled from the spec: the comparison of a row's mask with the modifier
state is done by the X11 front end, which is not in `config.h`.  A mask
matches when it is `XK_ANY_MOD` (the key no matter the modifiers state) or
equals the effective modifier state (`XK_NO_MOD` being the key alone). -/
def matchMask (mask eff : Nat) : Bool :=
  mask == XK_ANY_MOD || mask == eff

/-- Modelled from the spec: whether the lookup skips a row in the given modes
(the lookup is done by the X11 front end, which is not in `config.h`).  A row
is skipped when its appkey is `> 0` and keypad application mode is disabled,
or `< 0` and the mode is enabled, when its appkey is `2` and numlock is set,
and likewise when its appcursor is `> 0` and cursor application mode is
disabled, or `< 0` and the mode is enabled. -/
def skipped (m : Modes) (e : Key) : Bool :=
  (if m.appkeypad then decide (e.appkey < 0) else decide (e.appkey > 0))
  || (m.numlock && decide (e.appkey = 2))
  || (if m.appcursor then decide (e.appcursor < 0) else decide (e.appcursor > 0))

/-- Modelled from the spec: the sequential first-match search of the table
(done by the X11 front end, which is not in `config.h`): the string of the
first row for the keysym `k` whose mask matches and which the modes do not
skip, `none` when there is no such row. -/
def kmapRows (eff : Nat) (m : Modes) (k : Nat) : List Key → Option String
  | [] => none
  | e :: rest =>
    if e.k != k then kmapRows eff m k rest
    else if !matchMask e.mask eff then kmapRows eff m k rest
    else if skipped m e then kmapRows eff m k rest
    else some e.s

/-- Modelled from the spec: the key lookup of the X11 front end, which is not
in `config.h`.  A keysym outside the X11 function keys (0xFD00 - 0xFFFF) is
looked up only when `mappedkeys` lists it; the table is then searched
sequentially. -/
def kmap (k state : Nat) (m : Modes) : Option String :=
  if !mappedkeys.contains k && decide (k &&& 0xFFFF < 0xFD00) then none
  else kmapRows (effective state) m k key

/-- The four arrow keys with the final letter of their sequences. -/
def arrowKeys : List (Nat × Char) :=
  [(XK_Up, 'A'), (XK_Down, 'B'), (XK_Left, 'D'), (XK_Right, 'C')]

/-! ## Synchronized Update -/

/-- Modelled from the spec: the Sync-Update state of the draw scheduler, which
is not in `config.h`: the boolean "suspended", the timestamp of the suspension
start and the configured timeout (all times in ms of the monotonic clock). -/
structure SyncUpdate where
  suspended : Bool
  suspendStart : Nat
  timeout : Nat
deriving DecidableEq, Repr

/-- The events of the Synchronized-Update state machine, each with the time at
which it is received: BSU (Begin-Synchronized-Update), ESU
(End-Synchronized-Update) and the firing of the timeout timer. -/
inductive SuEvent where
  | BSU (now : Nat)
  | ESU (now : Nat)
  | timer (now : Nat)
deriving DecidableEq, Repr

/-- Modelled from the spec: one transition of the Synchronized-Update state
machine of the draw scheduler, which is not in `config.h`.  `BSU` in Idle goes
to Suspended and records the suspension start; `BSU` in Suspended stays
Suspended and resets the timeout clock; `ESU` in Suspended goes to Idle; `ESU`
in Idle is ignored; the timer, firing `timeout` after the last `BSU` while
still Suspended, forces the transition to Idle. -/
def SyncUpdate.step (s : SyncUpdate) : SuEvent → SyncUpdate
  | .BSU now => { s with suspended := true, suspendStart := now }
  | .ESU _ => if s.suspended then { s with suspended := false } else s
  | .timer now =>
    if s.suspended && decide (s.suspendStart + s.timeout ≤ now) then
      { s with suspended := false }
    else s

/-- The state after a sequence of events, received in order. -/
def SyncUpdate.run (s : SyncUpdate) (evs : List SuEvent) : SyncUpdate :=
  evs.foldl SyncUpdate.step s

/-- The state at startup: not suspended, with the timeout of `config.h`. -/
def SyncUpdate.init : SyncUpdate :=
  { suspended := false, suspendStart := 0, timeout := su_timeout }

/-! ## CSI sequences -/

/-- The escape character, `\033`. -/
def ESC : Char := Char.ofNat 27

/-- Whether the string begins with `ESC [`. -/
def startsCsi (s : String) : Bool :=
  match s.toList with
  | a :: b :: _ => a == ESC && b == '['
  | _ => false

/-- The bytes `cs` are `ESC [`, the parameters `params` separated by `;`, and
the final byte `final`, with nothing after it; there are at most three
parameters, each a non-empty run of decimal digits, and the final byte is in
the range 0x40-0x7E. -/
def CsiShape (cs : List Char) (params : List (List Char)) (final : Char) : Prop :=
  params.length ≤ 3
  ∧ (∀ p ∈ params, p ≠ [] ∧ ∀ c ∈ p, c.isDigit = true)
  ∧ 0x40 ≤ final.toNat ∧ final.toNat ≤ 0x7E
  ∧ cs = ESC :: '[' :: (List.intercalate [';'] params ++ [final])

instance (cs : List Char) (params : List (List Char)) (final : Char) :
    Decidable (CsiShape cs params final) :=
  inferInstanceAs (Decidable (_ ∧ _ ∧ _ ∧ _ ∧ _))

/-- The string is one complete, well-formed CSI sequence. -/
def WellFormedCsi (s : String) : Prop :=
  ∃ (params : List (List Char)) (final : Char), CsiShape s.toList params final

/-- The candidate parameters and final byte of a string that begins with
`ESC [`: the last byte, and what stands before it cut at every `;`. -/
def csiSplit (cs : List Char) : List (List Char) × Char :=
  let body := cs.drop 2
  let ps := body.dropLast
  (if ps = [] then [] else ps.splitOn ';', body.getLastD ' ')

/-! ## Helper lemmas -/

lemma key_pairwise_any_mod :
    key.Pairwise (fun a b => a.k = b.k → a.mask = XK_ANY_MOD → b.mask = XK_ANY_MOD) := by
  decide!

lemma key_csi_shape :
    ∀ e ∈ key, startsCsi e.s = true →
      CsiShape e.s.toList (csiSplit e.s.toList).1 (csiSplit e.s.toList).2 := by
  decide!

lemma run_bsu_suspended (ts : List Nat) (hts : ts ≠ []) (s : SyncUpdate) :
    (s.run (ts.map SuEvent.BSU)).suspended = true := by
  induction ts generalizing s with
  | nil => exact absurd rfl hts
  | cons t rest ih =>
    cases rest with
    | nil => rfl
    | cons u rest2 =>
      have h := ih (by simp) (s.step (SuEvent.BSU t))
      simpa [SyncUpdate.run] using h

/-! ## The claims -/

/-- C1: in the key table the XK_ANY_MOD rows are last for each key: for rows
at positions `i < j` with the same keysym, if row `i` has the mask XK_ANY_MOD
then row `j` has the mask XK_ANY_MOD too. -/
theorem any_mod_last (i j : Nat) (a b : Key) (hij : i < j)
    (ha : key[i]? = some a) (hb : key[j]? = some b)
    (hk : a.k = b.k) (hm : a.mask = XK_ANY_MOD) : b.mask = XK_ANY_MOD := by
  have hp := List.pairwise_iff_getElem.mp key_pairwise_any_mod
  obtain ⟨hi, rfl⟩ := List.getElem?_eq_some.mp ha
  obtain ⟨hj, rfl⟩ := List.getElem?_eq_some.mp hb
  exact hp i j hi hj hij hk hm

/-- The two XK_ANY_MOD rows of XK_KP_Home, at positions 2 and 3. -/
theorem any_mod_last_witness :
    (2 < 3 ∧ key[2]? = some (Key.mk XK_KP_Home XK_ANY_MOD "\x1b[H" 0 (-1))
      ∧ key[3]? = some (Key.mk XK_KP_Home XK_ANY_MOD "\x1b[1~" 0 1))
    ∧ (Key.mk XK_KP_Home XK_ANY_MOD "\x1b[1~" 0 1).mask = XK_ANY_MOD :=
  ⟨⟨by decide, rfl, rfl⟩, any_mod_last 2 3 _ _ (by decide) rfl rfl rfl rfl⟩

/-- C2: every keysym that has a row in the key table and whose value lies
outside the X11 function-key range 0xFD00-0xFFFF is listed in mappedkeys. -/
theorem key_outside_function_range_mapped :
    ∀ e ∈ key, ¬ (0xFD00 ≤ e.k ∧ e.k ≤ 0xFFFF) → e.k ∈ mappedkeys := by
  decide!

/-- The row of XK_bar (0x7C), a keysym outside the function-key range. -/
theorem key_outside_function_range_mapped_witness :
    (Key.mk XK_bar (ControlMask ||| ShiftMask) "\x1f\\" 0 0 ∈ key
      ∧ ¬ (0xFD00 ≤ XK_bar ∧ XK_bar ≤ 0xFFFF))
    ∧ XK_bar ∈ mappedkeys :=
  ⟨⟨by decide, by decide⟩,
   key_outside_function_range_mapped (Key.mk XK_bar (ControlMask ||| ShiftMask) "\x1f\\" 0 0)
     (by decide) (by decide)⟩

/-- C3: each default colour index is a valid, populated slot of the colour
table and is the slot its comment names: defaultcs = 256 (cursor), defaultrcs
= 257 (reverse cursor), defaultbg = 258 (bg), defaultfg = 259 (fg); each of
the four is below ncolors and colorname holds a colour name there. -/
theorem default_colours_populated :
    (defaultcs = 256 ∧ defaultrcs = 257 ∧ defaultbg = 258 ∧ defaultfg = 259)
    ∧ (defaultcs < ncolors ∧ defaultrcs < ncolors ∧ defaultbg < ncolors
        ∧ defaultfg < ncolors)
    ∧ colorname[defaultcs]? = some (some "#add8e6")
    ∧ colorname[defaultrcs]? = some (some "#555555")
    ∧ colorname[defaultbg]? = some (some "#282828")
    ∧ colorname[defaultfg]? = some (some "#ebdbb2") := by
  decide

/-- C4: for each of the four arrow keys (XK_Up, XK_Down, XK_Left, XK_Right,
with the final letter A, B, D, C), for every keypad and numlock mode, the
sequential first-match lookup with no modifier pressed yields ESC [ f when
cursor application mode is disabled and ESC O f when it is enabled. -/
theorem arrow_keys_lookup (state : Nat) (hstate : effective state = 0)
    (appkeypad numlock : Bool) :
    ∀ p ∈ arrowKeys,
      kmap p.1 state ⟨appkeypad, numlock, false⟩ = some (String.mk [ESC, '[', p.2])
      ∧ kmap p.1 state ⟨appkeypad, numlock, true⟩ = some (String.mk [ESC, 'O', p.2]) := by
  have h : ∀ ak nl : Bool, ∀ p ∈ arrowKeys,
      (if !mappedkeys.contains p.1 && decide (p.1 &&& 0xFFFF < 0xFD00) then none
        else kmapRows 0 ⟨ak, nl, false⟩ p.1 key) = some (String.mk [ESC, '[', p.2])
      ∧ (if !mappedkeys.contains p.1 && decide (p.1 &&& 0xFFFF < 0xFD00) then none
        else kmapRows 0 ⟨ak, nl, true⟩ p.1 key) = some (String.mk [ESC, 'O', p.2]) := by
    decide!
  intro p hp
  unfold kmap
  rw [hstate]
  exact h appkeypad numlock p hp

/-- The lookup with only Num Lock (Mod2Mask, an ignored bit) in the state,
keypad application mode and numlock set. -/
theorem arrow_keys_lookup_witness :
    effective Mod2Mask = 0
    ∧ ∀ p ∈ arrowKeys,
      kmap p.1 Mod2Mask ⟨true, true, false⟩ = some (String.mk [ESC, '[', p.2])
      ∧ kmap p.1 Mod2Mask ⟨true, true, true⟩ = some (String.mk [ESC, 'O', p.2]) :=
  ⟨by decide, arrow_keys_lookup Mod2Mask (by decide) true true⟩

/-- C5: the function-key aliases of the table's comments hold: for every n in
1..12 the table has exactly one row (XK_F(n+12), XK_NO_MOD) and exactly one
row (XK_Fn, ShiftMask), and their strings are equal; for every n in 1..11 it
has exactly one row (XK_F(n+24), XK_NO_MOD) and exactly one row (XK_Fn,
ControlMask), and their strings are equal. -/
theorem function_key_aliases (n : Nat) (h1 : 1 ≤ n) (h12 : n ≤ 12) :
    ((entries (XK_F (n + 12)) XK_NO_MOD).length = 1
      ∧ (entries (XK_F n) ShiftMask).length = 1
      ∧ (entries (XK_F (n + 12)) XK_NO_MOD).map Key.s
          = (entries (XK_F n) ShiftMask).map Key.s)
    ∧ (n ≤ 11 →
      (entries (XK_F (n + 24)) XK_NO_MOD).length = 1
      ∧ (entries (XK_F n) ControlMask).length = 1
      ∧ (entries (XK_F (n + 24)) XK_NO_MOD).map Key.s
          = (entries (XK_F n) ControlMask).map Key.s) := by
  have h : ∀ m : Fin 13, 1 ≤ m.val →
      ((entries (XK_F (m.val + 12)) XK_NO_MOD).length = 1
        ∧ (entries (XK_F m.val) ShiftMask).length = 1
        ∧ (entries (XK_F (m.val + 12)) XK_NO_MOD).map Key.s
            = (entries (XK_F m.val) ShiftMask).map Key.s)
      ∧ (m.val ≤ 11 →
        (entries (XK_F (m.val + 24)) XK_NO_MOD).length = 1
        ∧ (entries (XK_F m.val) ControlMask).length = 1
        ∧ (entries (XK_F (m.val + 24)) XK_NO_MOD).map Key.s
            = (entries (XK_F m.val) ControlMask).map Key.s) := by
    decide!
  exact h ⟨n, by omega⟩ h1

/-- The aliases of F11: F23 is Shift-F11 and F35 is Control-F11. -/
theorem function_key_aliases_witness :
    (1 ≤ 11 ∧ 11 ≤ 12)
    ∧ ((entries (XK_F (11 + 12)) XK_NO_MOD).length = 1
      ∧ (entries (XK_F 11) ShiftMask).length = 1
      ∧ (entries (XK_F (11 + 12)) XK_NO_MOD).map Key.s
          = (entries (XK_F 11) ShiftMask).map Key.s)
    ∧ (11 ≤ 11 →
      (entries (XK_F (11 + 24)) XK_NO_MOD).length = 1
      ∧ (entries (XK_F 11) ControlMask).length = 1
      ∧ (entries (XK_F (11 + 24)) XK_NO_MOD).map Key.s
          = (entries (XK_F 11) ControlMask).map Key.s) :=
  ⟨⟨by decide, by decide⟩, function_key_aliases 11 (by decide) (by decide)⟩

/-- C6: the draw latency bounds form a valid range: 0 < minlatency <=
maxlatency, the configured values being 8 and 33 milliseconds. -/
theorem latency_range :
    (minlatency = 8 ∧ maxlatency = 33) ∧ 0 < minlatency ∧ minlatency ≤ maxlatency := by
  norm_num [minlatency, maxlatency]

/-- C7: an ESU received while not suspended (no prior BSU) is ignored: the
state stays Idle and nothing else changes. -/
theorem esu_in_idle_ignored (s : SyncUpdate) (now : Nat) (hidle : s.suspended = false) :
    s.step (SuEvent.ESU now) = s ∧ (s.step (SuEvent.ESU now)).suspended = false := by
  simp [SyncUpdate.step, hidle]

/-- An ESU at 5 ms in the startup state. -/
theorem esu_in_idle_ignored_witness :
    SyncUpdate.init.suspended = false
    ∧ SyncUpdate.init.step (SuEvent.ESU 5) = SyncUpdate.init
    ∧ (SyncUpdate.init.step (SuEvent.ESU 5)).suspended = false :=
  ⟨rfl, esu_in_idle_ignored SyncUpdate.init 5 rfl⟩

/-- C8: Synchronized-Update does not nest: a BSU received while already
suspended keeps the state Suspended and resets the timeout clock, and a single
ESU after any number (>= 1) of BSUs ends the suspension immediately; in
particular BSU, BSU, ESU leaves the state Idle. -/
theorem su_does_not_nest (s : SyncUpdate) (now : Nat) (ts : List Nat) (tEnd : Nat)
    (hts : ts ≠ []) :
    (s.suspended = true →
      (s.step (SuEvent.BSU now)).suspended = true
      ∧ (s.step (SuEvent.BSU now)).suspendStart = now
      ∧ (s.step (SuEvent.BSU now)).timeout = s.timeout)
    ∧ (s.run (ts.map SuEvent.BSU ++ [SuEvent.ESU tEnd])).suspended = false
    ∧ (∀ t1 t2 t3 : Nat,
      (s.run [SuEvent.BSU t1, SuEvent.BSU t2, SuEvent.ESU t3]).suspended = false) := by
  have hrun : ∀ (us : List Nat) (t : Nat), us ≠ [] →
      (s.run (us.map SuEvent.BSU ++ [SuEvent.ESU t])).suspended = false := by
    intro us t hus
    have h := run_bsu_suspended us hus s
    simp only [SyncUpdate.run] at h
    simp [SyncUpdate.run, List.foldl_append, SyncUpdate.step, h]
  refine ⟨fun _ => ⟨rfl, rfl, rfl⟩, hrun ts tEnd hts, ?_⟩
  intro t1 t2 t3
  exact hrun [t1, t2] t3 (by simp)

/-- Three BSUs at 10, 150 and 290 ms and an ESU at 300 ms, from a state
suspended at 10 ms. -/
theorem su_does_not_nest_witness :
    ([150, 290] ≠ ([] : List Nat)
      ∧ (SyncUpdate.init.step (SuEvent.BSU 10)).suspended = true)
    ∧ ((SyncUpdate.init.step (SuEvent.BSU 10)).step (SuEvent.BSU 150)).suspended = true
    ∧ ((SyncUpdate.init.step (SuEvent.BSU 10)).step (SuEvent.BSU 150)).suspendStart = 150
    ∧ ((SyncUpdate.init.step (SuEvent.BSU 10)).run
        ([150, 290].map SuEvent.BSU ++ [SuEvent.ESU 300])).suspended = false :=
  have h := su_does_not_nest (SyncUpdate.init.step (SuEvent.BSU 10)) 150 [150, 290] 300
    (by decide)
  ⟨⟨by decide, rfl⟩, (h.1 rfl).1, (h.1 rfl).2.1, h.2.1⟩

/-- C9: every string of the key table that begins with ESC [ is one complete,
well-formed CSI sequence: ESC [, at most three decimal parameters separated by
`;`, exactly one final byte in the range 0x40-0x7E, and nothing after it. -/
theorem key_csi_well_formed :
    ∀ e ∈ key, startsCsi e.s = true → WellFormedCsi e.s := by
  intro e he hs
  exact ⟨_, _, key_csi_shape e he hs⟩

/-- The row of Control-Tab, a sequence with three parameters. -/
theorem key_csi_well_formed_witness :
    (Key.mk XK_Tab ControlMask "\x1b[27;5;9~" 0 0 ∈ key
      ∧ startsCsi "\x1b[27;5;9~" = true)
    ∧ WellFormedCsi "\x1b[27;5;9~" :=
  ⟨⟨by decide, by decide⟩,
   key_csi_well_formed (Key.mk XK_Tab ControlMask "\x1b[27;5;9~" 0 0)
     (by decide) (by decide)⟩

/-- C10: the click-classification timeouts are ordered so that each escalation
has a non-empty window: 0 < doubleclicktimeout < tripleclicktimeout, the
configured values being 300 and 600 milliseconds. -/
theorem click_timeouts_ordered :
    (doubleclicktimeout = 300 ∧ tripleclicktimeout = 600)
    ∧ 0 < doubleclicktimeout ∧ doubleclicktimeout < tripleclicktimeout := by
  decide

end St
